import Mathlib

/-!
Verification of the messaging subsystem of the edu-mate web application
(`src/routes/messages.py`), as a shallow embedding.

The relational store is modelled as a `List Message` (one element per row of
the `messages` table) resp. `List NotifRow` (rows of `message_notifications`).
Each HTTP handler becomes a pure function from the store (plus the
session-identified user id, route parameters, stripped form/JSON fields, the
current timestamp `now : Nat` standing for `datetime.now()`, and the
autoincrement id `newId` the database would assign) to a result value paired
with the updated store.  SQL `UPDATE ... WHERE` is a `List.map` guarded by the
WHERE predicate, `INSERT` is an append, `SELECT ... WHERE` is `List.find?` /
`List.filter`, and `ORDER BY sent_at DESC` is `List.mergeSort` with the
descending comparison.
-/

namespace EduMate

/-- One row of the `messages` table, with the columns used by
`src/routes/messages.py`.  Timestamps are `Nat`; nullable columns are
`Option`. -/
structure Message where
  id : Nat
  sender_id : Nat
  receiver_id : Nat
  subject : String
  content : String
  message_type : String
  parent_message_id : Option Nat
  related_content_id : Option Nat
  related_user_id : Option Nat
  sent_at : Nat
  is_read : Bool
  read_at : Option Nat
  is_deleted_by_sender : Bool
  is_deleted_by_receiver : Bool
deriving Repr, DecidableEq

/-- Characters stripped by the Python method `str.strip()`. -/
def isPySpace (c : Char) : Bool :=
  c == ' ' || c == '\t' || c == '\n' || c == '\r' || c == '\x0b' || c == '\x0c'

/-- Model of the Python method `str.strip()`: drop whitespace from both ends. -/
def pyStrip (s : String) : String :=
  ⟨((s.data.dropWhile isPySpace).reverse.dropWhile isPySpace).reverse⟩

/-- Whether `pat` is a prefix of the second list (Boolean, structural). -/
def listStartsWith : List Char → List Char → Bool
  | [], _ => true
  | _ :: _, [] => false
  | p :: ps, c :: cs => p == c && listStartsWith ps cs

/-- Whether `pat` occurs as a contiguous substring of the second list. -/
def listHasSub (pat : List Char) : List Char → Bool
  | [] => listStartsWith pat []
  | c :: cs => listStartsWith pat (c :: cs) || listHasSub pat cs

/-- The duplicate-request marker `Publication Request`. -/
def pubMarker : List Char := "Publication Request".data

/-- Model of the Python membership test (marker in subject) and of the SQL
LIKE filter on the marker: the marker occurs in `s`.
(SQLite LIKE is ASCII-case-insensitive; no claim exercises subjects
differing only in case, so both checks are modelled as case-sensitive
containment.) -/
def hasPubMarker (s : String) : Bool := listHasSub pubMarker s.data

/-- Python truthiness of an optional integer (`None` and `0` are falsy). -/
def optTruthy : Option Nat → Bool
  | none => false
  | some n => n != 0

/-- Model of `get_unread_count`: rows with `receiver_id = uid AND is_read = FALSE AND
is_deleted_by_receiver = FALSE`. -/
def get_unread_count (store : List Message) (uid : Nat) : Nat :=
  (store.filter (fun m =>
    m.receiver_id == uid && !m.is_read && !m.is_deleted_by_receiver)).length

/-- The WHERE clause of the SELECT in `view_message`: the requester `uid` is a
party to `m` that has not soft-deleted it. -/
def visibleTo (uid : Nat) (m : Message) : Bool :=
  (m.receiver_id == uid && !m.is_deleted_by_receiver) ||
  (m.sender_id == uid && !m.is_deleted_by_sender)

/-- Outcome of `view_message`: either the generic
"Message not found or access denied." flash + redirect, or the rendered
message. -/
inductive ViewResult where
  | notFound : ViewResult
  | shown : Message → ViewResult
deriving Repr, DecidableEq

/-- Model of `view_message(message_id)` for session user `uid` at time `now`:
fetch the row with the visibility WHERE clause; if absent, flash the generic
error; otherwise, if the requester is the receiver and the row is unread,
`UPDATE messages SET is_read = TRUE, read_at = now WHERE id = message_id`. -/
def view_message (store : List Message) (uid mid now : Nat) :
    ViewResult × List Message :=
  match store.find? (fun m => m.id == mid && visibleTo uid m) with
  | none => (ViewResult.notFound, store)
  | some m =>
    if m.receiver_id == uid && !m.is_read then
      (ViewResult.shown m,
       store.map (fun x =>
         if x.id == mid then { x with is_read := true, read_at := some now }
         else x))
    else (ViewResult.shown m, store)

/-- JSON result of `mark_as_read`: the `success` and `unread_count` payload. -/
structure MarkReadResult where
  success : Bool
  unread_count : Nat
deriving Repr, DecidableEq

/-- Model of `mark_as_read(message_id)` for session user `uid` at time `now`:
`UPDATE messages SET is_read = TRUE, read_at = now
WHERE id = message_id AND receiver_id = uid` (unconditionally, with no
`is_read = FALSE` guard), then return success with the fresh unread count. -/
def mark_as_read (store : List Message) (uid mid now : Nat) :
    MarkReadResult × List Message :=
  let store' := store.map (fun x =>
    if x.id == mid && x.receiver_id == uid then
      { x with is_read := true, read_at := some now }
    else x)
  ({ success := true, unread_count := get_unread_count store' uid }, store')

/-- JSON result of `delete_message` / `send_message`: the `success` flag and
optional `error` text. -/
structure JsonResult where
  success : Bool
  error : Option String
deriving Repr, DecidableEq

/-- Model of `delete_message(message_id)` for session user `uid`: fetch the row by id
alone; absent → `Message not found`; requester is the sender → set
`is_deleted_by_sender`; otherwise requester is the receiver → set
`is_deleted_by_receiver`; neither → `Access denied`. -/
def delete_message (store : List Message) (uid mid : Nat) :
    JsonResult × List Message :=
  match store.find? (fun m => m.id == mid) with
  | none => ({ success := false, error := some "Message not found" }, store)
  | some m =>
    if m.sender_id == uid then
      ({ success := true, error := none },
       store.map (fun x =>
         if x.id == mid then { x with is_deleted_by_sender := true } else x))
    else if m.receiver_id == uid then
      ({ success := true, error := none },
       store.map (fun x =>
         if x.id == mid then { x with is_deleted_by_receiver := true } else x))
    else
      ({ success := false, error := some "Access denied" }, store)

/-- Descending-by-`sent_at` comparison used for `ORDER BY sent_at DESC`. -/
def bySentAtDesc (a b : Message) : Bool := b.sent_at ≤ a.sent_at

/-- The received half of `inbox`: rows with `receiver_id = uid AND
is_deleted_by_receiver = FALSE`, ordered by `sent_at DESC`. -/
def inbox_received (store : List Message) (uid : Nat) : List Message :=
  (store.filter (fun m =>
    m.receiver_id == uid && !m.is_deleted_by_receiver)).mergeSort bySentAtDesc

/-- The sent half of `inbox`: rows with `sender_id = uid AND
is_deleted_by_sender = FALSE`, ordered by `sent_at DESC`. -/
def inbox_sent (store : List Message) (uid : Nat) : List Message :=
  (store.filter (fun m =>
    m.sender_id == uid && !m.is_deleted_by_sender)).mergeSort bySentAtDesc

/-- Outcome of the POST branch of `reply_message`. -/
inductive ReplyResult where
  | notFound : ReplyResult
  | emptyContent : ReplyResult
  | sent : ReplyResult
deriving Repr, DecidableEq

/-- Model of `reply_message(message_id)` (POST) for session user `uid` with raw form
field `content0`, at time `now`, the database assigning id `newId`:
fetch the original with
`WHERE id = message_id AND receiver_id = uid AND is_deleted_by_receiver = FALSE`;
absent → generic error, no insert; stripped content empty → error, no insert;
otherwise insert the reply row
(`sender = uid`, `receiver = original.sender_id`,
subject the original subject under the `Re: ` marker, message_type `personal`,
`parent_message_id = message_id`, `sent_at = now`). -/
def reply_message (store : List Message) (uid mid : Nat) (content0 : String)
    (now newId : Nat) : ReplyResult × List Message :=
  match store.find? (fun m =>
      m.id == mid && m.receiver_id == uid && !m.is_deleted_by_receiver) with
  | none => (ReplyResult.notFound, store)
  | some orig =>
    let content := pyStrip content0
    if content.data.isEmpty then (ReplyResult.emptyContent, store)
    else
      (ReplyResult.sent,
       store ++ [{ id := newId, sender_id := uid,
                   receiver_id := orig.sender_id,
                   subject := "Re: " ++ orig.subject, content := content,
                   message_type := "personal", parent_message_id := some mid,
                   related_content_id := none, related_user_id := none,
                   sent_at := now, is_read := false, read_at := none,
                   is_deleted_by_sender := false,
                   is_deleted_by_receiver := false }])

/-- The duplicate-guard count of `send_message`: non-deleted messages from
`uid` to `rcv` about content `cid` whose subject contains the marker. -/
def countPubReq (store : List Message) (uid rcv cid : Nat) : Nat :=
  (store.filter (fun m =>
    m.sender_id == uid && m.receiver_id == rcv &&
    m.related_content_id == some cid && hasPubMarker m.subject &&
    !m.is_deleted_by_sender && !m.is_deleted_by_receiver)).length

/-- Model of `send_message` (JSON, POST /send) for session user `uid`: strip subject
and content; reject if `receiver_id`, subject or content is falsy; if the
stripped subject contains `Publication Request` and `related_content_id`
is truthy, reject when the duplicate-guard count is positive; otherwise
insert a `personal` message carrying `related_content_id` at time `now`. -/
def send_message (store : List Message) (uid : Nat)
    (receiver_id : Option Nat) (subject0 content0 : String)
    (related_content_id : Option Nat) (now newId : Nat) :
    JsonResult × List Message :=
  let subject := pyStrip subject0
  let content := pyStrip content0
  if !optTruthy receiver_id || subject.data.isEmpty || content.data.isEmpty then
    ({ success := false, error := some "All fields are required" }, store)
  else if hasPubMarker subject && optTruthy related_content_id then
    if 0 < countPubReq store uid (receiver_id.getD 0)
        (related_content_id.getD 0) then
      ({ success := false,
         error := some "You have already sent a publication request for this content. Please wait for admin review." },
       store)
    else
      ({ success := true, error := none },
       store ++ [{ id := newId, sender_id := uid,
                   receiver_id := receiver_id.getD 0, subject := subject,
                   content := content, message_type := "personal",
                   parent_message_id := none,
                   related_content_id := related_content_id,
                   related_user_id := none, sent_at := now,
                   is_read := false, read_at := none,
                   is_deleted_by_sender := false,
                   is_deleted_by_receiver := false }])
  else
    ({ success := true, error := none },
     store ++ [{ id := newId, sender_id := uid,
                 receiver_id := receiver_id.getD 0, subject := subject,
                 content := content, message_type := "personal",
                 parent_message_id := none,
                 related_content_id := related_content_id,
                 related_user_id := none, sent_at := now,
                 is_read := false, read_at := none,
                 is_deleted_by_sender := false,
                 is_deleted_by_receiver := false }])

/-- Model of `check_publication_request(content_id)` for session user `uid`:
the `exists` payload is true iff the count is positive, counting messages with
`sender_id = uid AND receiver_id = 1 AND related_content_id = content_id`,
the marker in the subject, and neither deletion flag set. -/
def check_publication_request (store : List Message) (uid cid : Nat) : Bool :=
  0 < countPubReq store uid 1 cid

/-- One row of the `message_notifications` table. -/
structure NotifRow where
  user_id : Nat
  notification_type : String
  is_enabled : Bool
  email_enabled : Bool
  updated_at : Nat
deriving Repr, DecidableEq

/-- The fixed keys iterated by `update_notification_settings`. -/
def notificationTypes : List String :=
  ["new_message", "message_reply", "system_announcement", "content_feedback"]

/-- One loop iteration of `update_notification_settings`:
`UPDATE message_notifications SET is_enabled = en, email_enabled = em,
updated_at = now WHERE user_id = uid AND notification_type = t`. -/
def updateNotifOne (rows : List NotifRow) (uid : Nat) (t : String)
    (en em : Bool) (now : Nat) : List NotifRow :=
  rows.map (fun r =>
    if r.user_id == uid && r.notification_type == t then
      { r with is_enabled := en, email_enabled := em, updated_at := now }
    else r)

/-- Model of `update_notification_settings` (POST) for session user `uid`: for each of
the four fixed keys `t`, read the two form flags for `t` (each true iff the
form field equals `on`) and run the scoped UPDATE.
The form is modelled as a partial map from field name to value. -/
def update_notification_settings (rows : List NotifRow) (uid : Nat)
    (form : String → Option String) (now : Nat) : List NotifRow :=
  notificationTypes.foldl
    (fun acc t =>
      updateNotifOne acc uid t (form (t ++ "_enabled") == some "on")
        (form (t ++ "_email") == some "on") now)
    rows

/-- Model of `send_system_message`: with the store available
(`dbOk = true`), insert one message with the fixed admin sender
`sender_id = 1` at time `now` and return `True`; with the store unavailable
(connection `None`, or an insert exception followed by rollback:
`dbOk = false`), return `False` and leave the store unchanged.  No
duplicate-request guard is consulted. -/
def send_system_message (dbOk : Bool) (store : List Message)
    (receiver_id : Nat) (subject content message_type : String)
    (related_content_id related_user_id : Option Nat) (now newId : Nat) :
    Bool × List Message :=
  if dbOk then
    (true,
     store ++ [{ id := newId, sender_id := 1, receiver_id := receiver_id,
                 subject := subject, content := content,
                 message_type := message_type, parent_message_id := none,
                 related_content_id := related_content_id,
                 related_user_id := related_user_id, sent_at := now,
                 is_read := false, read_at := none,
                 is_deleted_by_sender := false,
                 is_deleted_by_receiver := false }])
  else (false, store)

/-! Helper lemmas shared by several claims. -/

/-- A filtered list has positive length iff some member satisfies the
predicate. -/
theorem length_filter_pos_iff {α : Type} (p : α → Bool) (l : List α) :
    0 < (l.filter p).length ↔ ∃ a, a ∈ l ∧ p a = true := by
  rw [List.length_pos_iff_exists_mem]
  constructor
  · rintro ⟨a, ha⟩
    exact ⟨a, (List.mem_filter).1 ha⟩
  · rintro ⟨a, ha, hp⟩
    exact ⟨a, (List.mem_filter).2 ⟨ha, hp⟩⟩

/-- A subject containing the publication-request marker is non-empty. -/
theorem hasPubMarker_nonempty {s : String} (h : hasPubMarker s = true) :
    s.data.isEmpty = false := by
  cases hd : s.data with
  | nil =>
    rw [hasPubMarker, hd] at h
    simp [listHasSub, listStartsWith, pubMarker] at h
  | cons c cs => simp

/-- Sample stored message used by concrete witnesses: id 1, sender 5,
receiver 8, unread, neither party has deleted it. -/
def msgA : Message :=
  { id := 1, sender_id := 5, receiver_id := 8, subject := "Hello",
    content := "Hi there", message_type := "personal",
    parent_message_id := none, related_content_id := none,
    related_user_id := none, sent_at := 100, is_read := false,
    read_at := none, is_deleted_by_sender := false,
    is_deleted_by_receiver := false }

/-- Stored publication-request message from user 1 to user 8 about
content 3, used by witnesses. -/
def msgPubReq : Message :=
  { id := 1, sender_id := 1, receiver_id := 8,
    subject := "Publication Request: Algebra", content := "Please review",
    message_type := "personal", parent_message_id := none,
    related_content_id := some 3, related_user_id := none, sent_at := 50,
    is_read := false, read_at := none, is_deleted_by_sender := false,
    is_deleted_by_receiver := false }

/-- C9: the system-message helper always inserts with the fixed admin sender
(user id 1) regardless of its arguments, never consults the duplicate
publication-request guard (it inserts even when a matching request already
exists in the store), returns `false` with the store unchanged when the
store is unavailable, and returns `true` after inserting exactly one message
on success. -/
theorem C9_send_system_message_spec (store : List Message) (rcv : Nat)
    (subject content mtype : String) (rcid ruid : Option Nat)
    (now newId : Nat) :
    send_system_message false store rcv subject content mtype rcid ruid
        now newId = (false, store) ∧
    send_system_message true store rcv subject content mtype rcid ruid
        now newId =
      (true,
       store ++ [{ id := newId, sender_id := 1, receiver_id := rcv,
                   subject := subject, content := content,
                   message_type := mtype, parent_message_id := none,
                   related_content_id := rcid, related_user_id := ruid,
                   sent_at := now, is_read := false, read_at := none,
                   is_deleted_by_sender := false,
                   is_deleted_by_receiver := false }]) ∧
    (∀ cid, 0 < countPubReq store 1 rcv cid →
      ((send_system_message true store rcv subject content mtype rcid ruid
          now newId).2).length = store.length + 1) := by
  refine ⟨rfl, rfl, fun cid _ => ?_⟩
  simp [send_system_message]

/-- C9 witness: concrete run of the helper, with a matching publication
request already in the store, in both availability modes. -/
theorem C9_send_system_message_spec_witness :
    send_system_message false [msgPubReq] 8 "Note" "Body" "system" none none
        7 2 = (false, [msgPubReq]) ∧
    ((send_system_message true [msgPubReq] 8 "Note" "Body" "system" none
        none 7 2).2).length = 1 + 1 := by
  refine ⟨(C9_send_system_message_spec [msgPubReq] 8 "Note" "Body" "system"
    none none 7 2).1, ?_⟩
  exact (C9_send_system_message_spec [msgPubReq] 8 "Note" "Body" "system"
    none none 7 2).2.2 3 (by decide)


/-- C10: the check-publication-request endpoint reports `exists = true` iff
the store holds a non-deleted message from the requester to the fixed
receiver 1 with that content id and the marker in its subject; requests sent
to any other receiver are never reported. -/
theorem C10_check_publication_request_spec (store : List Message)
    (uid cid : Nat) :
    (check_publication_request store uid cid = true ↔
      ∃ m, m ∈ store ∧ m.sender_id = uid ∧ m.receiver_id = 1 ∧
        m.related_content_id = some cid ∧ hasPubMarker m.subject = true ∧
        m.is_deleted_by_sender = false ∧ m.is_deleted_by_receiver = false) ∧
    ((∀ m ∈ store, m.receiver_id ≠ 1) →
      check_publication_request store uid cid = false) := by
  have hiff : check_publication_request store uid cid = true ↔
      ∃ m, m ∈ store ∧ m.sender_id = uid ∧ m.receiver_id = 1 ∧
        m.related_content_id = some cid ∧ hasPubMarker m.subject = true ∧
        m.is_deleted_by_sender = false ∧ m.is_deleted_by_receiver = false := by
    rw [check_publication_request, countPubReq, decide_eq_true_eq,
      length_filter_pos_iff]
    constructor
    · rintro ⟨m, hm, hp⟩
      simp only [Bool.and_eq_true, beq_iff_eq, Bool.not_eq_true'] at hp
      exact ⟨m, hm, hp.1.1.1.1.1, hp.1.1.1.1.2, hp.1.1.1.2, hp.1.1.2,
        hp.1.2, hp.2⟩
    · rintro ⟨m, hm, h1, h2, h3, h4, h5, h6⟩
      refine ⟨m, hm, ?_⟩
      simp [h1, h2, h3, h4, h5, h6]
  refine ⟨hiff, fun h => ?_⟩
  cases hb : check_publication_request store uid cid with
  | false => rfl
  | true =>
    obtain ⟨m, hm, _, h1, _⟩ := hiff.1 hb
    exact absurd h1 (h m hm)

/-- C10 witness: with the store holding one matching request to receiver 8
(not the fixed receiver 1), the endpoint reports nothing. -/
theorem C10_check_publication_request_spec_witness :
    check_publication_request [msgPubReq] 1 3 = false :=
  (C10_check_publication_request_spec [msgPubReq] 1 3).2 (by decide)

/-- C5: replying to an original message that exists, whose receiver is the
requester, and that the requester has not soft-deleted, with non-empty
content, appends exactly one message with sender = requester, receiver = the
sender of the original, its subject prefixed with `Re: `, parent link to the
original, and `sent_at = now`; when no such original is accessible, nothing
is inserted. -/
theorem C5_reply_message_spec (store : List Message) (uid mid : Nat)
    (content0 : String) (now newId : Nat) :
    (∀ orig,
      store.find? (fun m =>
          m.id == mid && m.receiver_id == uid && !m.is_deleted_by_receiver)
        = some orig →
      (pyStrip content0).data.isEmpty = false →
      reply_message store uid mid content0 now newId =
        (ReplyResult.sent,
         store ++ [{ id := newId, sender_id := uid,
                     receiver_id := orig.sender_id,
                     subject := "Re: " ++ orig.subject,
                     content := pyStrip content0,
                     message_type := "personal",
                     parent_message_id := some mid,
                     related_content_id := none, related_user_id := none,
                     sent_at := now, is_read := false, read_at := none,
                     is_deleted_by_sender := false,
                     is_deleted_by_receiver := false }])) ∧
    (store.find? (fun m =>
        m.id == mid && m.receiver_id == uid && !m.is_deleted_by_receiver)
      = none →
      reply_message store uid mid content0 now newId =
        (ReplyResult.notFound, store)) := by
  constructor
  · intro orig hfind hc
    rw [reply_message, hfind]
    simp [hc]
  · intro hfind
    rw [reply_message, hfind]

/-- C5 witness: user 8 replies "Thanks" to the stored message `msgA`
(id 1, sender 5, receiver 8); the reply row is appended; replying to the
absent id 2 inserts nothing. -/
theorem C5_reply_message_spec_witness :
    reply_message [msgA] 8 1 "Thanks" 200 2 =
      (ReplyResult.sent,
       [msgA] ++ [{ id := 2, sender_id := 8, receiver_id := 5,
                    subject := "Re: " ++ "Hello", content := pyStrip "Thanks",
                    message_type := "personal", parent_message_id := some 1,
                    related_content_id := none, related_user_id := none,
                    sent_at := 200, is_read := false, read_at := none,
                    is_deleted_by_sender := false,
                    is_deleted_by_receiver := false }]) ∧
    reply_message [msgA] 8 2 "Thanks" 200 2 = (ReplyResult.notFound, [msgA]) :=
  ⟨(C5_reply_message_spec [msgA] 8 1 "Thanks" 200 2).1 msgA (by decide)
      (by decide),
   (C5_reply_message_spec [msgA] 8 2 "Thanks" 200 2).2 (by decide)⟩

/-- C2 counterexample: with the store holding only `msgA` (sender 5,
receiver 8), a delete by user 7 of the absent id 2 answers
`Message not found` while their delete of the existing id 1 answers
`Access denied` — the two causes produce different external signals, so
the claim that view AND delete give an identical generic outcome in both
cases is false for delete. -/
theorem C2_counterexample :
    (delete_message [msgA] 7 2).1 =
      { success := false, error := some "Message not found" } ∧
    (delete_message [msgA] 7 1).1 =
      { success := false, error := some "Access denied" } ∧
    (delete_message [msgA] 7 2).1 ≠ (delete_message [msgA] 7 1).1 := by
  decide

/-- C2 amended: the view operation returns the identical generic
not-found-or-access-denied outcome whether the message is absent or the
requester is not a non-deleted party (the single hypothesis covers both
causes, absence vacuously); the delete operation returns `success = false`
in both cases but with distinct error strings — `Message not found` for an
absent id and `Access denied` for a requester matching neither party — so
delete does leak the distinction. -/
theorem C2_amended_error_signals (store : List Message) (uid mid now : Nat) :
    ((∀ m ∈ store, m.id = mid → visibleTo uid m = false) →
      view_message store uid mid now = (ViewResult.notFound, store)) ∧
    ((∀ m ∈ store, m.id ≠ mid) →
      delete_message store uid mid =
        ({ success := false, error := some "Message not found" }, store)) ∧
    (∀ m, store.find? (fun x => x.id == mid) = some m →
      m.sender_id ≠ uid → m.receiver_id ≠ uid →
      delete_message store uid mid =
        ({ success := false, error := some "Access denied" }, store)) := by
  refine ⟨fun h => ?_, fun h => ?_, fun m hfind hs hr => ?_⟩
  · have hnone : store.find? (fun m => m.id == mid && visibleTo uid m)
        = none := by
      rw [List.find?_eq_none]
      intro x hx
      simp only [Bool.and_eq_true, beq_iff_eq, not_and]
      intro h1 h2
      rw [h x hx h1] at h2
      cases h2
    rw [view_message, hnone]
  · have hnone : store.find? (fun m => m.id == mid) = none := by
      rw [List.find?_eq_none]
      intro x hx
      simp [h x hx]
    rw [delete_message, hnone]
  · rw [delete_message, hfind]
    simp [hs, hr]

/-- C2 amended witness: the concrete signals of view and delete for user 7
on the one-message store `[msgA]`. -/
theorem C2_amended_error_signals_witness :
    view_message [msgA] 7 2 0 = (ViewResult.notFound, [msgA]) ∧
    delete_message [msgA] 7 2 =
      ({ success := false, error := some "Message not found" }, [msgA]) ∧
    delete_message [msgA] 7 1 =
      ({ success := false, error := some "Access denied" }, [msgA]) :=
  ⟨(C2_amended_error_signals [msgA] 7 2 0).1 (by decide),
   (C2_amended_error_signals [msgA] 7 2 0).2.1 (by decide),
   (C2_amended_error_signals [msgA] 7 1 0).2.2 msgA (by decide) (by decide)
     (by decide)⟩

/-- C3: starting from a store with no matching non-deleted publication
request, two JSON sends by the same sender to the same receiver with the
marker `Publication Request` in the stripped subject and the same
(non-zero) related content id behave as follows: the first succeeds and
inserts exactly one row, the second is rejected with the duplicate-request
error and inserts nothing, and the store afterwards contains exactly one
such non-deleted message. -/
theorem C3_duplicate_publication_request_guard (store : List Message)
    (uid rcv cid : Nat) (subject0 content0 : String)
    (now1 id1 now2 id2 : Nat) (hrcv : rcv ≠ 0) (hcid : cid ≠ 0)
    (hsub : hasPubMarker (pyStrip subject0) = true)
    (hcon : (pyStrip content0).data.isEmpty = false)
    (hclean : countPubReq store uid rcv cid = 0) :
    (send_message store uid (some rcv) subject0 content0 (some cid) now1
        id1).1.success = true ∧
    ((send_message store uid (some rcv) subject0 content0 (some cid) now1
        id1).2).length = store.length + 1 ∧
    send_message ((send_message store uid (some rcv) subject0 content0
        (some cid) now1 id1).2) uid (some rcv) subject0 content0 (some cid)
        now2 id2 =
      ({ success := false,
         error := some "You have already sent a publication request for this content. Please wait for admin review." },
       (send_message store uid (some rcv) subject0 content0 (some cid) now1
         id1).2) ∧
    countPubReq ((send_message store uid (some rcv) subject0 content0
        (some cid) now1 id1).2) uid rcv cid = 1 := by
  have hsubne : (pyStrip subject0).data.isEmpty = false :=
    hasPubMarker_nonempty hsub
  have htr : optTruthy (some rcv) = true := by simp [optTruthy, hrcv]
  have htc : optTruthy (some cid) = true := by simp [optTruthy, hcid]
  have h1 : send_message store uid (some rcv) subject0 content0 (some cid)
      now1 id1 =
      ({ success := true, error := none },
       store ++ [{ id := id1, sender_id := uid, receiver_id := rcv,
                   subject := pyStrip subject0, content := pyStrip content0,
                   message_type := "personal", parent_message_id := none,
                   related_content_id := some cid, related_user_id := none,
                   sent_at := now1, is_read := false, read_at := none,
                   is_deleted_by_sender := false,
                   is_deleted_by_receiver := false }]) := by
    rw [send_message]
    simp [htr, htc, hsub, hsubne, hcon, hclean]
  have hc1 : countPubReq
      (store ++ [{ id := id1, sender_id := uid, receiver_id := rcv,
                   subject := pyStrip subject0, content := pyStrip content0,
                   message_type := "personal", parent_message_id := none,
                   related_content_id := some cid, related_user_id := none,
                   sent_at := now1, is_read := false, read_at := none,
                   is_deleted_by_sender := false,
                   is_deleted_by_receiver := false }]) uid rcv cid = 1 := by
    rw [countPubReq] at hclean ⊢
    simp [List.filter_append, hsub, hclean]
  have h2 : send_message
      (store ++ [{ id := id1, sender_id := uid, receiver_id := rcv,
                   subject := pyStrip subject0, content := pyStrip content0,
                   message_type := "personal", parent_message_id := none,
                   related_content_id := some cid, related_user_id := none,
                   sent_at := now1, is_read := false, read_at := none,
                   is_deleted_by_sender := false,
                   is_deleted_by_receiver := false }]) uid (some rcv)
      subject0 content0 (some cid) now2 id2 =
      ({ success := false,
         error := some "You have already sent a publication request for this content. Please wait for admin review." },
       store ++ [{ id := id1, sender_id := uid, receiver_id := rcv,
                   subject := pyStrip subject0, content := pyStrip content0,
                   message_type := "personal", parent_message_id := none,
                   related_content_id := some cid, related_user_id := none,
                   sent_at := now1, is_read := false, read_at := none,
                   is_deleted_by_sender := false,
                   is_deleted_by_receiver := false }]) := by
    rw [send_message]
    simp [htr, htc, hsub, hsubne, hcon, hc1]
  exact ⟨by rw [h1], by rw [h1]; simp, by rw [h1]; exact h2,
    by rw [h1]; exact hc1⟩

/-- C3 witness: user 5 sends the publication request for content 3 to
user 1 twice into an empty store; the first send succeeds, the second is
rejected, and exactly one matching message remains. -/
theorem C3_duplicate_publication_request_guard_witness :
    (send_message [] 5 (some 1) "Publication Request: Algebra"
        "Please review" (some 3) 50 1).1.success = true ∧
    (send_message ((send_message [] 5 (some 1)
        "Publication Request: Algebra" "Please review" (some 3) 50 1).2) 5
        (some 1) "Publication Request: Algebra" "Please review" (some 3) 60
        2).1.success = false ∧
    countPubReq ((send_message [] 5 (some 1) "Publication Request: Algebra"
        "Please review" (some 3) 50 1).2) 5 1 3 = 1 := by
  have h := C3_duplicate_publication_request_guard [] 5 1 3
    "Publication Request: Algebra" "Please review" 50 1 60 2 (by decide)
    (by decide) (by decide) (by decide) (by decide)
  exact ⟨h.1, by rw [h.2.2.1], h.2.2.2⟩

/-- C4: for a message accessible to its receiver and still unread, the first
view marks it read with `read_at = t1`, and a second view at `t2` returns
the same read row and leaves the store exactly as the first view left it —
so `read_at` stays at the timestamp of the first view. -/
theorem C4_view_message_idempotent (store : List Message)
    (uid mid t1 t2 : Nat) (m0 : Message)
    (hfind : store.find? (fun m => m.id == mid && visibleTo uid m)
      = some m0)
    (hrecv : m0.receiver_id = uid) (hunread : m0.is_read = false) :
    (view_message store uid mid t1).1 = ViewResult.shown m0 ∧
    ((view_message store uid mid t1).2).find?
        (fun m => m.id == mid && visibleTo uid m) =
      some { m0 with is_read := true, read_at := some t1 } ∧
    view_message ((view_message store uid mid t1).2) uid mid t2 =
      (ViewResult.shown { m0 with is_read := true, read_at := some t1 },
       (view_message store uid mid t1).2) := by
  have hp0 := List.find?_some hfind
  have hid : (m0.id == mid) = true := by
    simp only [Bool.and_eq_true] at hp0
    exact hp0.1
  have hcond : (m0.receiver_id == uid && !m0.is_read) = true := by
    simp [hrecv, hunread]
  have h1 : view_message store uid mid t1 =
      (ViewResult.shown m0,
       store.map (fun x => if x.id == mid then
         { x with is_read := true, read_at := some t1 } else x)) := by
    rw [view_message, hfind]
    simp [hcond]
  have hfind2 : ((view_message store uid mid t1).2).find?
      (fun m => m.id == mid && visibleTo uid m) =
      some { m0 with is_read := true, read_at := some t1 } := by
    rw [h1]
    rw [List.find?_map]
    have hcomp : ((fun m : Message => m.id == mid && visibleTo uid m) ∘
        (fun x => if x.id == mid then
          { x with is_read := true, read_at := some t1 } else x)) =
        (fun m : Message => m.id == mid && visibleTo uid m) := by
      funext x
      by_cases hx : (x.id == mid) = true
      · simp [Function.comp, hx, visibleTo]
      · simp [Function.comp, hx]
    rw [hcomp, hfind]
    have hide : m0.id = mid := by simpa using hid
    simp [hide]
  have hgen : ∀ s : List Message,
      s.find? (fun m => m.id == mid && visibleTo uid m) =
        some { m0 with is_read := true, read_at := some t1 } →
      view_message s uid mid t2 =
        (ViewResult.shown { m0 with is_read := true, read_at := some t1 },
         s) := by
    intro s hf
    rw [view_message, hf]
    simp
  exact ⟨by rw [h1], hfind2, hgen _ hfind2⟩

/-- C4 witness: receiver 8 views message 1 at time 10 and again at time 20;
after both views the accessible row carries `read_at = 10`. -/
theorem C4_view_message_idempotent_witness :
    ((view_message [msgA] 8 1 10).2).find?
        (fun m => m.id == 1 && visibleTo 8 m) =
      some { msgA with is_read := true, read_at := some 10 } ∧
    view_message ((view_message [msgA] 8 1 10).2) 8 1 20 =
      (ViewResult.shown { msgA with is_read := true, read_at := some 10 },
       (view_message [msgA] 8 1 10).2) := by
  have h := C4_view_message_idempotent [msgA] 8 1 10 20 msgA (by decide)
    (by decide) (by decide)
  exact ⟨h.2.1, h.2.2⟩

/-- C6: delete by a requester matching `sender_id` rewrites the store by
setting only `is_deleted_by_sender` on the targeted row (record update:
every other field, including the other deletion flag, and every other row
unchanged); a requester matching `receiver_id` (and not `sender_id`) sets
only `is_deleted_by_receiver`; a requester matching neither gets the
access-denied outcome with the store — hence both deletion flags —
unchanged. -/
theorem C6_delete_message_frame (store : List Message) (uid mid : Nat) :
    ∀ m, store.find? (fun x => x.id == mid) = some m →
      (m.sender_id = uid →
        delete_message store uid mid =
          ({ success := true, error := none },
           store.map (fun x => if x.id == mid then
             { x with is_deleted_by_sender := true } else x))) ∧
      (m.sender_id ≠ uid → m.receiver_id = uid →
        delete_message store uid mid =
          ({ success := true, error := none },
           store.map (fun x => if x.id == mid then
             { x with is_deleted_by_receiver := true } else x))) ∧
      (m.sender_id ≠ uid → m.receiver_id ≠ uid →
        delete_message store uid mid =
          ({ success := false, error := some "Access denied" }, store)) := by
  intro m hfind
  refine ⟨fun hs => ?_, fun hs hr => ?_, fun hs hr => ?_⟩
  · rw [delete_message, hfind]
    simp [hs]
  · rw [delete_message, hfind]
    simp [hs, hr]
  · rw [delete_message, hfind]
    simp [hs, hr]

/-- C6 witness: on the one-message store `[msgA]` (sender 5, receiver 8),
deletes by the sender, the receiver and a stranger. -/
theorem C6_delete_message_frame_witness :
    delete_message [msgA] 5 1 =
      ({ success := true, error := none },
       [{ msgA with is_deleted_by_sender := true }]) ∧
    delete_message [msgA] 8 1 =
      ({ success := true, error := none },
       [{ msgA with is_deleted_by_receiver := true }]) ∧
    delete_message [msgA] 7 1 =
      ({ success := false, error := some "Access denied" }, [msgA]) := by
  refine ⟨?_, ?_, ?_⟩
  · rw [(C6_delete_message_frame [msgA] 5 1 msgA (by decide)).1 (by decide)]
    decide
  · rw [(C6_delete_message_frame [msgA] 8 1 msgA (by decide)).2.1
      (by decide) (by decide)]
    decide
  · exact (C6_delete_message_frame [msgA] 7 1 msgA (by decide)).2.2
      (by decide) (by decide)

/-- Positional image of a mapped list: the row at index `i` of `l.map f` is
`f` of the row at index `i` of `l`. -/
theorem getElem?_map_eq {α β : Type} (f : α → β) (l : List α) (i : Nat)
    {a : α} {b : β} (ha : l[i]? = some a) (hb : (l.map f)[i]? = some b) :
    b = f a := by
  rw [List.getElem?_map, ha] at hb
  exact (Option.some_inj.mp hb).symm

/-- The store after `view_message` is either untouched or the image of the
read-stamping UPDATE. -/
theorem view_message_snd (store : List Message) (uid mid now : Nat) :
    (view_message store uid mid now).2 = store ∨
    (view_message store uid mid now).2 =
      store.map (fun x => if x.id == mid then
        { x with is_read := true, read_at := some now } else x) := by
  rw [view_message]
  split
  · left; rfl
  · split
    · right; rfl
    · left; rfl

/-- The store after `delete_message` is untouched or the image of one of the
two deletion-flag UPDATEs. -/
theorem delete_message_snd (store : List Message) (uid mid : Nat) :
    (delete_message store uid mid).2 = store ∨
    (delete_message store uid mid).2 =
      store.map (fun x => if x.id == mid then
        { x with is_deleted_by_sender := true } else x) ∨
    (delete_message store uid mid).2 =
      store.map (fun x => if x.id == mid then
        { x with is_deleted_by_receiver := true } else x) := by
  rw [delete_message]
  split
  · left; rfl
  · split
    · right; left; rfl
    · split
      · right; right; rfl
      · left; rfl

/-- The store after `mark_as_read` is the image of its unconditional
UPDATE. -/
theorem mark_as_read_snd (store : List Message) (uid mid now : Nat) :
    (mark_as_read store uid mid now).2 =
      store.map (fun x => if x.id == mid && x.receiver_id == uid then
        { x with is_read := true, read_at := some now } else x) := rfl

/-- Sample already-read stored message (receiver 8, `read_at = 10`) used by
the C1 theorems. -/
def msgRead : Message := { msgA with is_read := true, read_at := some 10 }

/-- C1 counterexample: receiver 8 POSTs mark-read on message 1 at time 10
and again at time 20; the second POST changes `read_at` from `some 10` to
`some 20`, so `read_at` is not set at most once. -/
theorem C1_counterexample :
    ((mark_as_read [msgA] 8 1 10).2).head?.map Message.read_at =
      some (some 10) ∧
    ((mark_as_read (mark_as_read [msgA] 8 1 10).2 8 1 20).2).head?.map
        Message.read_at = some (some 20) ∧
    ((mark_as_read (mark_as_read [msgA] 8 1 10).2 8 1 20).2).head?.map
        Message.read_at ≠
      ((mark_as_read [msgA] 8 1 10).2).head?.map Message.read_at := by
  decide

/-- C1 amended: `is_read` transitions only from false to true — no
operation resets it — and `view_message` writes the read state only when
the viewed message is unread (it is a complete no-op on the store once that
message is read); the delete operation never touches `is_read`/`read_at`;
but each POST to the mark-read endpoint by the receiver unconditionally
re-stamps `read_at` with the current time, so repeated POSTs move `read_at`
to the timestamp of the latest POST rather than leaving it at the first. -/
theorem C1_read_state_discipline (store : List Message)
    (uid mid now : Nat) :
    (∀ (i : Nat) (m m' : Message), store[i]? = some m →
      ((view_message store uid mid now).2)[i]? = some m' →
      m.is_read = true → m'.is_read = true) ∧
    (∀ m0, store.find? (fun m => m.id == mid && visibleTo uid m)
        = some m0 → m0.is_read = true →
      (view_message store uid mid now).2 = store) ∧
    (∀ (i : Nat) (m m' : Message), store[i]? = some m →
      ((mark_as_read store uid mid now).2)[i]? = some m' →
      (m.is_read = true → m'.is_read = true) ∧
      (m.id = mid → m.receiver_id = uid →
        m'.is_read = true ∧ m'.read_at = some now)) ∧
    (∀ (i : Nat) (m m' : Message), store[i]? = some m →
      ((delete_message store uid mid).2)[i]? = some m' →
      m'.is_read = m.is_read ∧ m'.read_at = m.read_at) := by
  refine ⟨?_, ?_, ?_, ?_⟩
  · intro i m m' hm hm' hread
    rcases view_message_snd store uid mid now with h | h
    · rw [h, hm] at hm'
      cases hm'
      exact hread
    · rw [h] at hm'
      rw [getElem?_map_eq _ _ _ hm hm']
      by_cases hx : (m.id == mid) = true
      · simp [hx]
      · simp [hx, hread]
  · intro m0 hf hread
    rw [view_message, hf]
    simp [hread]
  · intro i m m' hm hm'
    rw [mark_as_read_snd] at hm'
    rw [getElem?_map_eq _ _ _ hm hm']
    constructor
    · intro hread
      by_cases hx : (m.id == mid && m.receiver_id == uid) = true
      · simp [hx]
      · simp [hx, hread]
    · intro hid hrecv
      have hx : (m.id == mid && m.receiver_id == uid) = true := by
        simp [hid, hrecv]
      simp [hx]
  · intro i m m' hm hm'
    rcases delete_message_snd store uid mid with h | h | h
    · rw [h, hm] at hm'
      cases hm'
      exact ⟨rfl, rfl⟩
    · rw [h] at hm'
      rw [getElem?_map_eq _ _ _ hm hm']
      by_cases hx : (m.id == mid) = true
      · simp [hx]
      · simp [hx]
    · rw [h] at hm'
      rw [getElem?_map_eq _ _ _ hm hm']
      by_cases hx : (m.id == mid) = true
      · simp [hx]
      · simp [hx]

/-- C1 amended witness: on the already-read row `msgRead` (read at 10),
viewing changes nothing, deleting preserves the read fields, and a fresh
mark-read POST by receiver 8 at time 20 re-stamps `read_at` to 20. -/
theorem C1_read_state_discipline_witness :
    (view_message [msgRead] 8 1 99).2 = [msgRead] ∧
    ({ msgRead with is_deleted_by_receiver := true } : Message).is_read =
        msgRead.is_read ∧
    ({ msgRead with is_deleted_by_receiver := true } : Message).read_at =
        msgRead.read_at ∧
    ({ msgRead with read_at := some 20 } : Message).is_read = true ∧
    ({ msgRead with read_at := some 20 } : Message).read_at = some 20 := by
  have h := C1_read_state_discipline [msgRead] 8 1 20
  refine ⟨h.2.1 msgRead (by decide) (by decide), ?_, ?_, ?_, ?_⟩
  · exact (h.2.2.2 0 msgRead { msgRead with is_deleted_by_receiver := true }
      (by decide) (by decide)).1
  · exact (h.2.2.2 0 msgRead { msgRead with is_deleted_by_receiver := true }
      (by decide) (by decide)).2
  · exact ((h.2.2.1 0 msgRead { msgRead with read_at := some 20 }
      (by decide) (by decide)).2 (by decide) (by decide)).1
  · exact ((h.2.2.1 0 msgRead { msgRead with read_at := some 20 }
      (by decide) (by decide)).2 (by decide) (by decide)).2

/-- C7: the received listing contains exactly the stored messages with
`receiver_id = uid` not deleted by the receiver, the sent listing exactly
those with `sender_id = uid` not deleted by the sender (so a message deleted
by only one party still appears in the listing of the other party), and both
are ordered descending by `sent_at`. -/
theorem C7_inbox_spec (store : List Message) (uid : Nat) :
    (∀ m : Message, m ∈ inbox_received store uid ↔
      m ∈ store ∧ m.receiver_id = uid ∧ m.is_deleted_by_receiver = false) ∧
    (inbox_received store uid).Pairwise
      (fun a b => b.sent_at ≤ a.sent_at) ∧
    (∀ m : Message, m ∈ inbox_sent store uid ↔
      m ∈ store ∧ m.sender_id = uid ∧ m.is_deleted_by_sender = false) ∧
    (inbox_sent store uid).Pairwise
      (fun a b => b.sent_at ≤ a.sent_at) := by
  have htrans : ∀ a b c : Message,
      bySentAtDesc a b → bySentAtDesc b c → bySentAtDesc a c := by
    intro a b c hab hbc
    simp only [bySentAtDesc, decide_eq_true_eq] at hab hbc ⊢
    omega
  have htotal : ∀ a b : Message, bySentAtDesc a b || bySentAtDesc b a := by
    intro a b
    simp only [bySentAtDesc, Bool.or_eq_true, decide_eq_true_eq]
    omega
  have hconv : ∀ (l : List Message),
      (l.mergeSort bySentAtDesc).Pairwise
        (fun a b => bySentAtDesc a b = true) →
      (l.mergeSort bySentAtDesc).Pairwise
        (fun a b : Message => b.sent_at ≤ a.sent_at) := by
    intro l h
    exact h.imp (fun hab => by
      simpa only [bySentAtDesc, decide_eq_true_eq] using hab)
  refine ⟨?_, ?_, ?_, ?_⟩
  · intro m
    simp [inbox_received, List.mem_filter, and_assoc]
  · exact hconv _ (List.sorted_mergeSort htrans htotal _)
  · intro m
    simp [inbox_sent, List.mem_filter, and_assoc]
  · exact hconv _ (List.sorted_mergeSort htrans htotal _)

/-- C8: the notification-settings update equals a single pass over the
pre-existing rows that rewrites exactly the rows of the requester whose type is
one of the four fixed keys with the two form flags for that key — so the
row count is preserved (update-only), and for any key with no pre-existing
row for that user no row is created. -/
theorem C8_update_notification_settings_spec (rows : List NotifRow)
    (uid : Nat) (form : String → Option String) (now : Nat) :
    update_notification_settings rows uid form now =
      rows.map (fun r =>
        if r.user_id = uid ∧ r.notification_type ∈ notificationTypes then
          { r with
            is_enabled :=
              form (r.notification_type ++ "_enabled") == some "on",
            email_enabled :=
              form (r.notification_type ++ "_email") == some "on",
            updated_at := now }
        else r) ∧
    (update_notification_settings rows uid form now).length = rows.length ∧
    (∀ t : String,
      (∀ r ∈ rows, ¬(r.user_id = uid ∧ r.notification_type = t)) →
      ∀ r' ∈ update_notification_settings rows uid form now,
        ¬(r'.user_id = uid ∧ r'.notification_type = t)) := by
  have hmain : update_notification_settings rows uid form now =
      rows.map (fun r =>
        if r.user_id = uid ∧ r.notification_type ∈ notificationTypes then
          { r with
            is_enabled :=
              form (r.notification_type ++ "_enabled") == some "on",
            email_enabled :=
              form (r.notification_type ++ "_email") == some "on",
            updated_at := now }
        else r) := by
    rw [update_notification_settings, notificationTypes]
    simp only [List.foldl_cons, List.foldl_nil, updateNotifOne,
      List.map_map]
    apply List.map_congr_left
    intro r _
    by_cases hu : r.user_id = uid
    · by_cases h1 : r.notification_type = "new_message"
      · simp [Function.comp, hu, h1, notificationTypes]
      · by_cases h2 : r.notification_type = "message_reply"
        · simp [Function.comp, hu, h1, h2, notificationTypes]
        · by_cases h3 : r.notification_type = "system_announcement"
          · simp [Function.comp, hu, h1, h2, h3, notificationTypes]
          · by_cases h4 : r.notification_type = "content_feedback"
            · simp [Function.comp, hu, h1, h2, h3, h4, notificationTypes]
            · simp [Function.comp, hu, h1, h2, h3, h4, notificationTypes]
    · simp [Function.comp, hu]
  refine ⟨hmain, by rw [hmain, List.length_map], ?_⟩
  intro t ht r' hr'
  rw [hmain] at hr'
  obtain ⟨r, hr, hre⟩ := List.mem_map.mp hr'
  have hfields : r'.user_id = r.user_id ∧
      r'.notification_type = r.notification_type := by
    by_cases hcase : r.user_id = uid ∧
        r.notification_type ∈ notificationTypes
    · rw [← hre]
      simp [hcase]
    · rw [← hre]
      simp [hcase]
  intro hcon
  exact ht r hr ⟨hfields.1.symm.trans hcon.1, hfields.2.symm.trans hcon.2⟩

/-- Pre-existing notification row of user 9 for the key
`content_feedback`. -/
def notifRow0 : NotifRow :=
  { user_id := 9, notification_type := "content_feedback",
    is_enabled := true, email_enabled := true, updated_at := 0 }

/-- The row `notifRow0` as the empty-form update leaves it at time 5. -/
def notifRow0upd : NotifRow :=
  { notifRow0 with
      is_enabled := false, email_enabled := false, updated_at := 5 }

/-- C8 witness: user 9 owns only a `content_feedback` row and submits an
empty form; the update rewrites the flags of that row in place (no row for
`new_message` is created) and the store keeps one row. -/
theorem C8_update_notification_settings_spec_witness :
    update_notification_settings [notifRow0] 9 (fun _ => none) 5 =
      [notifRow0upd] ∧
    (update_notification_settings [notifRow0] 9 (fun _ => none) 5).length
      = 1 ∧
    ¬(notifRow0upd.user_id = 9 ∧
      notifRow0upd.notification_type = "new_message") := by
  have h := C8_update_notification_settings_spec [notifRow0] 9
    (fun _ => none) 5
  refine ⟨?_, h.2.1, ?_⟩
  · rw [h.1]
    decide
  · exact h.2.2 "new_message" (by decide) notifRow0upd
      (by rw [h.1]; decide)

end EduMate
